import Mathlib

/-!
# Verification of the fabric-index merge tool (`src/app.py`)

Shallow embedding of the core of `app.py`:

* `clean_key_func`  — the key normalizer (lines 22–40);
* `process_data`    — index construction + reconciliation (lines 43–80);
* `convert_df_to_excel_with_highlight` — the annotated export (lines 83–108).

Modelling choices:

* A Python/pandas string is a list of Unicode code points (`Str := List Nat`);
  `str.strip()` is modelled on the ASCII whitespace characters, `str.upper()`
  on the ASCII letters (the only characters the pipeline's keys can contain
  per the spec's data model).
* A pandas cell read with `dtype=str` is either a string or NaN/None, so a
  cell is `Option Str` with `none` for NaN/missing (`pd.isna`).
* A pandas `DataFrame` is its column count plus its list of rows; pandas
  frames are rectangular, which theorems carry as the `Rect` hypothesis.
  Column labels play no role in the pipeline (all access is positional) and
  are not modelled.
* A Python `dict` is an insertion-ordered association list where inserting an
  existing key replaces its value in place (`dinsert`/`dictOf`/`dlookup`).
* `iloc` accesses that raise `IndexError` in Python (a column index out of
  range) are modelled as `Except.error`; the Streamlit shell catches the
  exception at line 149 and reports it.
* The xlsxwriter worksheet is a grid of (value, highlighted?) cells; data row
  `i` of the frame lands on worksheet row `i + 1` (row 0 is the header, whose
  labels are not modelled). Later writes overwrite earlier ones, which the
  two-phase model (`toExcelGrid` then `highlightLoop`) reproduces literally.
-/

namespace Merge

/-- Strings as lists of Unicode code points. -/
abbrev Str := List Nat

/-- Code-point list of a Lean string literal (used only to write examples). -/
def strOf (s : String) : Str := s.data.map Char.toNat

/-- A pandas cell under `dtype=str`: a string, or `none` for NaN/missing. -/
abbrev Cell := Option Str

/-- ASCII whitespace stripped by Python's `str.strip()`. -/
def isPySpace (n : Nat) : Bool :=
  n = 32 || n = 9 || n = 10 || n = 11 || n = 12 || n = 13

/-- Python `str.strip()`: drop whitespace from both ends. -/
def pyStrip (s : Str) : Str :=
  ((s.dropWhile isPySpace).reverse.dropWhile isPySpace).reverse

/-- Python `str.upper()` on one ASCII code point. -/
def upNat (n : Nat) : Nat := if 97 ≤ n ∧ n ≤ 122 then n - 32 else n

/-- Python `str.upper()`. -/
def pyUpper (s : Str) : Str := s.map upNat

/-- The two-character suffix `".0"`. -/
def dot0 : Str := strOf ".0"

/-- The string `"NAN"`. -/
def nanStr : Str := strOf "NAN"

/-- `clean_key_func` (app.py lines 22–40): NaN/None ↦ `""`; otherwise strip,
upper-case, drop one trailing `".0"`, and collapse `"NAN"` to `""`. -/
def clean_key_func (val : Cell) : Str :=
  match val with
  | none => []
  | some v =>
    let s := pyUpper (pyStrip v)
    let s := if dot0.isSuffixOf s then s.take (s.length - 2) else s
    if s = nanStr then [] else s

/-- A pandas `DataFrame`: column count and rows (labels are not modelled). -/
structure DataFrame where
  ncols : Nat
  rows : List (List Cell)
  deriving DecidableEq

/-- pandas frames are rectangular: every row has exactly `ncols` cells. -/
def Rect (df : DataFrame) : Prop := ∀ r ∈ df.rows, r.length = df.ncols

instance instDecidableRect (df : DataFrame) : Decidable (Rect df) :=
  inferInstanceAs (Decidable (∀ r ∈ df.rows, r.length = df.ncols))

/-- Python `dict` insertion: replace the value of an existing key in place,
otherwise append the new binding. -/
def dinsert (m : List (Str × Cell)) (k : Str) (v : Cell) : List (Str × Cell) :=
  match m with
  | [] => [(k, v)]
  | (k', v') :: rest =>
    if k' = k then (k, v) :: rest else (k', v') :: dinsert rest k v

/-- `dict(zip(keys, vals))`: sequential insertion into an empty dict. -/
def dictOf (l : List (Str × Cell)) : List (Str × Cell) :=
  l.foldl (fun m kv => dinsert m kv.1 kv.2) []

/-- Python `dict` lookup (`d[k]`, with `k in d` as `(dlookup d k).isSome`). -/
def dlookup (m : List (Str × Cell)) (k : Str) : Option Cell :=
  (m.find? (fun p => p.1 = k)).map (fun p => p.2)

/-- The `(clean_key_func(col 0), raw col 1)` pairs zipped at app.py
lines 46–50, in row order. -/
def buildPairs (index_df : DataFrame) : List (Str × Cell) :=
  index_df.rows.map (fun r => (clean_key_func (r.getD 0 none), r.getD 1 none))

/-- The reference index `index_dict` of app.py line 50. -/
def index_dict (index_df : DataFrame) : List (Str × Cell) :=
  dictOf (buildPairs index_df)

/-- The composite probe key of one main row:
`clean_key_func(row[0]) + clean_key_func(row[3])` (app.py line 57). -/
def row_key (r : List Cell) : Str :=
  clean_key_func (r.getD 0 none) ++ clean_key_func (r.getD 3 none)

/-- The composite probe key of main row `i`. -/
def composite_key (df : DataFrame) (i : Nat) : Str :=
  row_key (df.rows.getD i [])

/-- The loop body at app.py lines 63–71: resolve one composite key against
the index dict, yielding the new column-4 value and the highlight flag. -/
def resolve_one (d : List (Str × Cell)) (r : List Cell) : Cell × Bool :=
  match dlookup d (row_key r) with
  | some v => (v, true)
  | none => ((some (row_key r) : Cell), false)

/-- The column count the padding loop at app.py lines 75–76 adds: pad the
frame with `None` columns until it has at least 5. -/
def pad_width (n : Nat) : Nat := if n < 5 then 5 - n else 0

/-- One result row: the original row, padded with `None` cells (app.py
lines 75–76), with position 4 overwritten by the resolved value (line 78). -/
def write_row (pad : Nat) (r : List Cell) (p : Cell × Bool) : List Cell :=
  (r ++ List.replicate pad (none : Cell)).set 4 p.1

/-- `process_data` (app.py lines 43–80). `index_df.iloc[:, 1]` raises
`IndexError` when the reference frame has fewer than 2 columns, and
`df_result.iloc[:, 3]` raises when the main frame has fewer than 4 columns
(the padding loop at lines 75–76 only runs afterwards); both raises are
modelled as `Except.error`. Otherwise: per main row, resolve the composite
key against `index_dict` (value on hit, the key itself on miss), record the
hit in the highlight mask, pad the copied frame to 5 columns with `None`,
and overwrite column 4 with the resolved values. -/
def process_data (main_df index_df : DataFrame) :
    Except Unit (DataFrame × List Bool) :=
  if index_df.ncols < 2 then .error ()
  else if main_df.ncols < 4 then .error ()
  else
    let resolved := main_df.rows.map (resolve_one (index_dict index_df))
    let newRows := List.zipWith (write_row (pad_width main_df.ncols))
      main_df.rows resolved
    .ok (⟨max main_df.ncols 5, newRows⟩, resolved.map (fun p => p.2))

/-- Rows of a `process_data` outcome (`[]` when it errored). -/
def resRows (e : Except Unit (DataFrame × List Bool)) : List (List Cell) :=
  match e with
  | .ok (df, _) => df.rows
  | .error _ => []

/-- Highlight mask of a `process_data` outcome (`[]` when it errored). -/
def resMask (e : Except Unit (DataFrame × List Bool)) : List Bool :=
  match e with
  | .ok (_, m) => m
  | .error _ => []

/-! ## The annotated export (app.py lines 83–108) -/

/-- A worksheet: each (row, column) position holds a value and a
highlighted-yellow flag. -/
abbrev Grid := Nat → Nat → Cell × Bool

/-- One `worksheet.write(r, c, v, fmt)` call: overwrite a single cell. -/
def wwrite (g : Grid) (r c : Nat) (v : Cell) (hl : Bool) : Grid :=
  fun r' c' => if r' = r ∧ c' = c then (v, hl) else g r' c'

/-- `df.to_excel(...)` (app.py line 88): every data cell is written, with no
highlight, data row `i` landing on worksheet row `i + 1` (row 0 is the
header). -/
def toExcelGrid (df : DataFrame) : Grid :=
  fun r c =>
    if 1 ≤ r ∧ r - 1 < df.rows.length ∧ c < df.ncols then
      (((df.rows.getD (r - 1) []).getD c none : Cell), false)
    else ((none : Cell), false)

/-- `value_to_write` of app.py lines 101–103: a NaN destined for a
highlighted cell is written as the empty string. -/
def blankIfNa (c : Cell) : Str :=
  match c with
  | none => []
  | some s => s

/-- The `for idx, is_match in enumerate(mask)` loop of app.py lines 99–105:
for each masked row, rewrite the cell at (row idx+1, column 4) with the
yellow format. -/
def highlightLoop (df : DataFrame) (mask : List Bool) (idx : Nat) (g : Grid) :
    Grid :=
  match mask with
  | [] => g
  | m :: rest =>
    highlightLoop df rest (idx + 1)
      (if m then
        wwrite g (idx + 1) 4
          (some (blankIfNa ((df.rows.getD idx []).getD 4 none))) true
      else g)

/-- `convert_df_to_excel_with_highlight` (app.py lines 83–108): the final
worksheet state after the base dump and the highlight pass. -/
def convert_df_to_excel_with_highlight (df : DataFrame) (mask : List Bool) :
    Grid :=
  highlightLoop df mask 0 (toExcelGrid df)

/-! ## Helper lemmas -/

/-- Upper-casing one code point twice is the same as once. -/
theorem upNat_upNat (n : Nat) : upNat (upNat n) = upNat n := by
  unfold upNat
  split
  · split <;> omega
  · rfl

/-- Python `str.upper()` is idempotent. -/
theorem pyUpper_pyUpper (s : Str) : pyUpper (pyUpper s) = pyUpper s := by
  unfold pyUpper
  rw [List.map_map]
  exact List.map_congr_left (fun a _ => upNat_upNat a)

/-- `str.upper()` commutes with taking a prefix. -/
theorem pyUpper_take (k : Nat) (s : Str) :
    pyUpper (List.take k s) = List.take k (pyUpper s) := by
  simp [pyUpper, List.map_take]

/-- Every output of the normalizer is already upper-case. -/
theorem pyUpper_clean_key_func (v : Cell) :
    pyUpper (clean_key_func v) = clean_key_func v := by
  unfold clean_key_func
  match v with
  | none => rfl
  | some t =>
    simp only
    split
    · split
      · rfl
      · rw [pyUpper_take, pyUpper_pyUpper]
    · split
      · rfl
      · exact pyUpper_pyUpper _

/-- The normalizer never returns the literal string `"NAN"`. -/
theorem clean_key_func_ne_nan (v : Cell) : clean_key_func v ≠ nanStr := by
  unfold clean_key_func
  match v with
  | none => decide
  | some t =>
    simp only
    split <;> split <;> simp_all <;> decide

/-- Python `dict` lookup after a single insertion. -/
theorem dlookup_dinsert (m : List (Str × Cell)) (k' k : Str) (v : Cell) :
    dlookup (dinsert m k' v) k = if k' = k then some v else dlookup m k := by
  induction m with
  | nil =>
    by_cases h : k' = k <;> simp [dinsert, dlookup, List.find?, h]
  | cons p rest ih =>
    obtain ⟨a, b⟩ := p
    simp only [dinsert]
    by_cases hak : a = k'
    · subst hak
      rw [if_pos rfl]
      by_cases h : a = k <;> simp [dlookup, List.find?, h]
    · rw [if_neg hak]
      by_cases h : a = k
      · subst h
        have hk' : ¬k' = a := fun hh => hak hh.symm
        simp [dlookup, List.find?, hk']
      · simp only [dlookup, List.find?] at ih ⊢
        simp only [h, decide_eq_true_eq, if_neg h]
        simpa [h] using ih

/-- Lookup in a dict built by left-folding insertions over a pair list:
the LAST binding of a key wins; keys never bound fall back to the
accumulator. -/
theorem dlookup_foldl_dinsert (l : List (Str × Cell)) :
    ∀ (m : List (Str × Cell)) (k : Str),
      dlookup (l.foldl (fun m kv => dinsert m kv.1 kv.2) m) k =
        (match l.reverse.find? (fun p => p.1 = k) with
         | some p => some p.2
         | none => dlookup m k) := by
  induction l with
  | nil => intro m k; rfl
  | cons x xs ih =>
    intro m k
    simp only [List.foldl_cons, List.reverse_cons, List.find?_append]
    rw [ih]
    rcases h : xs.reverse.find? (fun p => decide (p.1 = k)) with _ | p
    · rw [h]
      simp only [Option.none_or]
      rw [dlookup_dinsert]
      by_cases hx : x.1 = k <;> simp [List.find?, hx]
    · rw [h]
      simp

/-- Lookup in `dictOf l`: the value of the last pair of `l` with the
looked-up key. -/
theorem dlookup_dictOf (l : List (Str × Cell)) (k : Str) :
    dlookup (dictOf l) k =
      (l.reverse.find? (fun p => p.1 = k)).map (fun p => p.2) := by
  unfold dictOf
  rw [dlookup_foldl_dinsert]
  rcases h : l.reverse.find? (fun p => decide (p.1 = k)) with _ | p <;> simp [h, dlookup]

/-- The highlight flag of one resolved row is exactly index membership of
its composite key. -/
theorem resolve_one_snd (d : List (Str × Cell)) (r : List Cell) :
    (resolve_one d r).2 = (dlookup d (row_key r)).isSome := by
  unfold resolve_one
  rcases h : dlookup d (row_key r) with _ | v <;> simp [h]

/-- The new column-4 value of one resolved row: the index value on a hit,
the composite key itself on a miss. -/
theorem resolve_one_fst (d : List (Str × Cell)) (r : List Cell) :
    (resolve_one d r).1 =
      (match dlookup d (row_key r) with
       | some v => v
       | none => (some (row_key r) : Cell)) := by
  unfold resolve_one
  rcases h : dlookup d (row_key r) with _ | v <;> simp [h]

/-- Length of a written result row. -/
theorem write_row_length (pad : Nat) (r : List Cell) (p : Cell × Bool) :
    (write_row pad r p).length = r.length + pad := by
  simp [write_row]

/-- Reading back position 4 of a written result row. -/
theorem write_row_getD_self (pad : Nat) (r : List Cell) (p : Cell × Bool)
    (h : 4 < r.length + pad) :
    (write_row pad r p).getD 4 none = p.1 := by
  unfold write_row
  rw [List.getD_eq_getElem?_getD, List.getElem?_set_self (by simpa using h)]
  rfl

/-- Reading back any position other than 4 of a written result row: the
original cell inside the row, `none` (a padding cell or out of range)
beyond it. -/
theorem write_row_getD_ne (pad : Nat) (r : List Cell) (p : Cell × Bool)
    (j : Nat) (hj : j ≠ 4) :
    (write_row pad r p).getD j none =
      if j < r.length then r.getD j none else none := by
  unfold write_row
  rw [List.getD_eq_getElem?_getD,
    List.getElem?_set_ne (fun h => hj h.symm), List.getElem?_append]
  split
  · rw [List.getD_eq_getElem?_getD]
  · rw [List.getElem?_replicate]
    split <;> rfl

/-- Everything `process_data` guarantees on well-formed inputs (a
rectangular main table with at least 4 columns, a reference table with at
least 2): it succeeds; mask and result are row-aligned with the input; each
result row has `max ncols 5` cells; the mask records index membership of
the row's composite key; column 4 holds the index value on a hit and the
composite key on a miss; every other column is the unchanged input cell
(or a `None` padding cell past the input's columns). -/
theorem process_data_spec (main_df index_df : DataFrame)
    (hm : 4 ≤ main_df.ncols) (hic : 2 ≤ index_df.ncols) (hr : Rect main_df) :
    (process_data main_df index_df).isOk = true ∧
    (resMask (process_data main_df index_df)).length = main_df.rows.length ∧
    (resRows (process_data main_df index_df)).length = main_df.rows.length ∧
    ∀ i, i < main_df.rows.length →
      ((resRows (process_data main_df index_df)).getD i []).length =
          max main_df.ncols 5 ∧
      (resMask (process_data main_df index_df)).getD i false =
        (dlookup (index_dict index_df) (composite_key main_df i)).isSome ∧
      ((resRows (process_data main_df index_df)).getD i []).getD 4 none =
        (match dlookup (index_dict index_df) (composite_key main_df i) with
         | some v => v
         | none => (some (composite_key main_df i) : Cell)) ∧
      ∀ j, j ≠ 4 →
        ((resRows (process_data main_df index_df)).getD i []).getD j none =
          (if j < main_df.ncols then (main_df.rows.getD i []).getD j none
           else none) := by
  have h1 : ¬index_df.ncols < 2 := by omega
  have h2 : ¬main_df.ncols < 4 := by omega
  unfold process_data
  rw [if_neg h1, if_neg h2]
  simp only [resRows, resMask, Except.isOk]
  refine ⟨rfl, by simp, by simp, ?_⟩
  intro i hi
  obtain ⟨r, hri⟩ : ∃ r, main_df.rows[i]? = some r :=
    ⟨_, List.getElem?_eq_getElem hi⟩
  have hrD : main_df.rows.getD i [] = r := by
    rw [List.getD_eq_getElem?_getD, hri]
    rfl
  have hrlen : r.length = main_df.ncols := hr r (List.getElem?_mem hri)
  have hres : (main_df.rows.map (resolve_one (index_dict index_df)))[i]? =
      some (resolve_one (index_dict index_df) r) := by
    rw [List.getElem?_map, hri]
    rfl
  have hnew : (List.zipWith (write_row (pad_width main_df.ncols)) main_df.rows
      (main_df.rows.map (resolve_one (index_dict index_df))))[i]? =
      some (write_row (pad_width main_df.ncols) r
        (resolve_one (index_dict index_df) r)) := by
    rw [List.getElem?_zipWith, hri, hres]
  have hnewD : (List.zipWith (write_row (pad_width main_df.ncols)) main_df.rows
      (main_df.rows.map (resolve_one (index_dict index_df)))).getD i [] =
      write_row (pad_width main_df.ncols) r
        (resolve_one (index_dict index_df) r) := by
    rw [List.getD_eq_getElem?_getD, hnew]
    rfl
  have hpad : r.length + pad_width main_df.ncols = max main_df.ncols 5 := by
    rw [hrlen]; unfold pad_width; split <;> omega
  have hkey : composite_key main_df i = row_key r := by
    rw [composite_key, hrD]
  refine ⟨?_, ?_, ?_, ?_⟩
  · rw [hnewD, write_row_length, hpad]
  · rw [List.getD_eq_getElem?_getD, List.getElem?_map, hres, hkey]
    simp [resolve_one_snd]
  · rw [hnewD, write_row_getD_self _ _ _ (by omega), hkey]
    exact resolve_one_fst _ _
  · intro j hj
    rw [hnewD, write_row_getD_ne _ _ _ j hj, hrlen, hrD]

/-! ## Claims -/

/-- Claim C6: the normalizer maps null, `""` and `"NaN"` to `""`,
`"123.0"` to `"123"`, and `"  abc "` to `"ABC"`. -/
theorem c6_normalizer_values :
    clean_key_func none = strOf "" ∧
    clean_key_func (some (strOf "")) = strOf "" ∧
    clean_key_func (some (strOf "NaN")) = strOf "" ∧
    clean_key_func (some (strOf "123.0")) = strOf "123" ∧
    clean_key_func (some (strOf "  abc ")) = strOf "ABC" := by
  refine ⟨rfl, by decide, by decide, by decide, by decide⟩

/-- Claim C2, counterexample: the normalizer is not idempotent.
Normalizing `"1.0.0"` gives `"1.0"` (one `".0"` suffix stripped), but
normalizing the result again gives `"1"`. -/
theorem c2_counterexample :
    clean_key_func (some (strOf "1.0.0")) = strOf "1.0" ∧
    clean_key_func (some (clean_key_func (some (strOf "1.0.0")))) = strOf "1" ∧
    clean_key_func (some (clean_key_func (some (strOf "1.0.0")))) ≠
      clean_key_func (some (strOf "1.0.0")) := by
  refine ⟨by decide, by decide, by decide⟩

/-- Claim C2 as amended: the normalizer is idempotent on every input whose
normalized form is unchanged by whitespace-stripping and does not end in
`".0"`. (The single `".0"` strip can expose a new `".0"` suffix, as in
`"1.0.0" ↦ "1.0" ↦ "1"`, or a trailing whitespace character, as in
`"1 .0" ↦ "1 " ↦ "1"`; those are exactly the failures.) -/
theorem c2_amended_idempotent (v : Cell)
    (hstrip : pyStrip (clean_key_func v) = clean_key_func v)
    (hdot : dot0.isSuffixOf (clean_key_func v) = false) :
    clean_key_func (some (clean_key_func v)) = clean_key_func v := by
  conv_lhs => rw [clean_key_func]
  simp only [hstrip, pyUpper_clean_key_func, hdot]
  simp [clean_key_func_ne_nan v]

/-- Witness for the amended C2 at the input `"ABC"`. -/
theorem c2_amended_witness :
    pyStrip (clean_key_func (some (strOf "ABC"))) =
        clean_key_func (some (strOf "ABC")) ∧
    dot0.isSuffixOf (clean_key_func (some (strOf "ABC"))) = false ∧
    clean_key_func (some (clean_key_func (some (strOf "ABC")))) =
      clean_key_func (some (strOf "ABC")) :=
  ⟨by decide, by decide,
    c2_amended_idempotent (some (strOf "ABC")) (by decide) (by decide)⟩

/-- Claim C5: for a reference table with at least 2 columns, the built index
resolves every row's normalized column-0 key, and any key resolves to the
raw column-1 value of the LAST reference row bearing it (later rows
silently overwrite earlier ones). -/
theorem c5_index_last_wins (index_df : DataFrame) (_hic : 2 ≤ index_df.ncols) :
    (∀ r ∈ index_df.rows,
      (dlookup (index_dict index_df)
        (clean_key_func (r.getD 0 none))).isSome = true) ∧
    (∀ k : Str, dlookup (index_dict index_df) k =
      (index_df.rows.reverse.find?
          (fun r => clean_key_func (r.getD 0 none) = k)).map
        (fun r => r.getD 1 none)) := by
  have key : ∀ k : Str, dlookup (index_dict index_df) k =
      (index_df.rows.reverse.find?
          (fun r => clean_key_func (r.getD 0 none) = k)).map
        (fun r => r.getD 1 none) := by
    intro k
    unfold index_dict buildPairs
    rw [dlookup_dictOf, ← List.map_reverse, List.find?_map, Option.map_map]
    rfl
  refine ⟨fun r hr => ?_, key⟩
  rw [key, Option.isSome_map']
  rw [List.find?_isSome]
  exact ⟨r, List.mem_reverse.mpr hr, by simp⟩

/-- Witness for C5 at the two-row reference table
`[("K", "V1"), ("K", "V2")]`: the duplicate key resolves to `"V2"`. -/
theorem c5_witness :
    2 ≤ (DataFrame.mk 2 [[some (strOf "K"), some (strOf "V1")],
        [some (strOf "K"), some (strOf "V2")]]).ncols ∧
    dlookup (index_dict (DataFrame.mk 2 [[some (strOf "K"), some (strOf "V1")],
        [some (strOf "K"), some (strOf "V2")]])) (strOf "K") =
      some (some (strOf "V2")) := by
  have h := c5_index_last_wins
    (DataFrame.mk 2 [[some (strOf "K"), some (strOf "V1")],
      [some (strOf "K"), some (strOf "V2")]]) (by decide)
  refine ⟨by decide, ?_⟩
  rw [h.2 (strOf "K")]
  decide

/-- Claim C9: a reference table with fewer than 2 columns makes
`process_data` signal an error (the `iloc[:, 1]` column access raises
`IndexError`, caught and reported by the shell); no result table or mask is
produced. -/
theorem c9_narrow_reference_errors (main_df index_df : DataFrame)
    (h : index_df.ncols < 2) :
    process_data main_df index_df = .error () := by
  unfold process_data
  rw [if_pos h]

/-- Claim C1: for a rectangular main table with at least 4 columns and a
built index (reference table with at least 2 columns), reconciliation
succeeds; the mask has one entry per row; for each row `i` the mask is true
exactly when the composite key is in the index, column 4 of the result is
the index value on a hit, and the composite key itself on a miss. The
all-empty composite key `""` is covered by the same quantifier: it matches
iff the index has an empty-string key. -/
theorem c1_reconciliation (main_df index_df : DataFrame)
    (hm : 4 ≤ main_df.ncols) (hic : 2 ≤ index_df.ncols) (hr : Rect main_df) :
    (process_data main_df index_df).isOk = true ∧
    (resMask (process_data main_df index_df)).length = main_df.rows.length ∧
    (resRows (process_data main_df index_df)).length = main_df.rows.length ∧
    ∀ i, i < main_df.rows.length →
      (resMask (process_data main_df index_df)).getD i false =
        (dlookup (index_dict index_df) (composite_key main_df i)).isSome ∧
      ((resRows (process_data main_df index_df)).getD i []).getD 4 none =
        (match dlookup (index_dict index_df) (composite_key main_df i) with
         | some v => v
         | none => (some (composite_key main_df i) : Cell)) := by
  obtain ⟨h1, h2, h3, h4⟩ := process_data_spec main_df index_df hm hic hr
  exact ⟨h1, h2, h3, fun i hi => ⟨(h4 i hi).2.1, (h4 i hi).2.2.1⟩⟩

/-- Witness for C1 at the spec's Scenario A: main row
`("abc", "x", "y", "123.0")` against reference row `("ABC123", "MATCHED")`
matches. -/
theorem c1_witness :
    (process_data
      (DataFrame.mk 4 [[some (strOf "abc"), some (strOf "x"),
        some (strOf "y"), some (strOf "123.0")]])
      (DataFrame.mk 2 [[some (strOf "ABC123"),
        some (strOf "MATCHED")]])).isOk = true ∧
    (resMask (process_data
      (DataFrame.mk 4 [[some (strOf "abc"), some (strOf "x"),
        some (strOf "y"), some (strOf "123.0")]])
      (DataFrame.mk 2 [[some (strOf "ABC123"),
        some (strOf "MATCHED")]]))).getD 0 false = true := by
  have h := c1_reconciliation
    (DataFrame.mk 4 [[some (strOf "abc"), some (strOf "x"),
      some (strOf "y"), some (strOf "123.0")]])
    (DataFrame.mk 2 [[some (strOf "ABC123"), some (strOf "MATCHED")]])
    (by decide) (by decide) (by decide)
  refine ⟨h.1, ?_⟩
  rw [(h.2.2.2 0 (by decide)).1]
  decide

/-- Claim C7: `process_data` copies the main table (the embedding is pure,
mirroring `main_df.copy()` at app.py line 53, so the input frame is a value
that cannot be mutated); the result has exactly one row per input row in
the same order; the mask is aligned 1:1 with the result rows; and every
column other than 4 holds the unchanged input cell (`none` for the
synthesized padding positions past the input's columns). -/
theorem c7_frame_and_order (main_df index_df : DataFrame)
    (hm : 4 ≤ main_df.ncols) (hic : 2 ≤ index_df.ncols) (hr : Rect main_df) :
    (process_data main_df index_df).isOk = true ∧
    (resRows (process_data main_df index_df)).length = main_df.rows.length ∧
    (resMask (process_data main_df index_df)).length =
      (resRows (process_data main_df index_df)).length ∧
    ∀ i, i < main_df.rows.length → ∀ j, j ≠ 4 →
      ((resRows (process_data main_df index_df)).getD i []).getD j none =
        (if j < main_df.ncols then (main_df.rows.getD i []).getD j none
         else none) := by
  obtain ⟨h1, h2, h3, h4⟩ := process_data_spec main_df index_df hm hic hr
  exact ⟨h1, h3, by rw [h2, h3], fun i hi j hj => (h4 i hi).2.2.2 j hj⟩

/-- Witness for C7: column 0 of the result equals column 0 of the input on
a concrete table. -/
theorem c7_witness :
    ((resRows (process_data
      (DataFrame.mk 4 [[some (strOf "Z"), some (strOf "x"),
        some (strOf "y"), some (strOf "9")]])
      (DataFrame.mk 2 [[some (strOf "ABC123"),
        some (strOf "MATCHED")]]))).getD 0 []).getD 0 none =
      some (strOf "Z") := by
  have h := c7_frame_and_order
    (DataFrame.mk 4 [[some (strOf "Z"), some (strOf "x"),
      some (strOf "y"), some (strOf "9")]])
    (DataFrame.mk 2 [[some (strOf "ABC123"), some (strOf "MATCHED")]])
    (by decide) (by decide) (by decide)
  rw [h.2.2.2 0 (by decide) 0 (by decide)]
  decide

/-- Claim C3, counterexample: a main table with only 3 columns does NOT
succeed — `df_result.iloc[:, 3]` (app.py line 57) is evaluated before the
padding loop (lines 75–76) and raises `IndexError`, so `process_data`
errors instead of padding. -/
theorem c3_counterexample :
    process_data
      (DataFrame.mk 3 [[some (strOf "A"), some (strOf "B"),
        some (strOf "C")]])
      (DataFrame.mk 2 [[some (strOf "K"), some (strOf "V")]]) =
      .error () := by
  rfl

/-- Claim C3 as amended: only a main table with exactly 4 columns is padded
— `process_data` then succeeds, each result row is synthesized up to 5
cells, and position 4 holds the resolved value; a main table with fewer
than 4 columns makes `process_data` signal an error instead, because
column 3 is read before the padding loop runs. -/
theorem c3_amended_padding (main_df index_df : DataFrame)
    (h4 : main_df.ncols = 4) (hic : 2 ≤ index_df.ncols) (hr : Rect main_df) :
    ((process_data main_df index_df).isOk = true ∧
     ∀ i, i < main_df.rows.length →
       ((resRows (process_data main_df index_df)).getD i []).length = 5 ∧
       ((resRows (process_data main_df index_df)).getD i []).getD 4 none =
         (match dlookup (index_dict index_df) (composite_key main_df i) with
          | some v => v
          | none => (some (composite_key main_df i) : Cell))) ∧
    ∀ main2 : DataFrame, main2.ncols < 4 →
      process_data main2 index_df = .error () := by
  obtain ⟨h1, _, _, hrow⟩ :=
    process_data_spec main_df index_df (by omega) hic hr
  refine ⟨⟨h1, fun i hi => ⟨?_, (hrow i hi).2.2.1⟩⟩, fun main2 hlt => ?_⟩
  · rw [(hrow i hi).1, h4]
    decide
  · unfold process_data
    rw [if_neg (by omega), if_pos hlt]

/-- Witness for the amended C3: a 4-column main table is padded to 5-cell
rows and reconciles. -/
theorem c3_amended_witness :
    (process_data
      (DataFrame.mk 4 [[some (strOf "Z"), some (strOf "x"),
        some (strOf "y"), some (strOf "9")]])
      (DataFrame.mk 2 [[some (strOf "K"), some (strOf "V")]])).isOk = true ∧
    ((resRows (process_data
      (DataFrame.mk 4 [[some (strOf "Z"), some (strOf "x"),
        some (strOf "y"), some (strOf "9")]])
      (DataFrame.mk 2 [[some (strOf "K"),
        some (strOf "V")]]))).getD 0 []).length = 5 := by
  have h := c3_amended_padding
    (DataFrame.mk 4 [[some (strOf "Z"), some (strOf "x"),
      some (strOf "y"), some (strOf "9")]])
    (DataFrame.mk 2 [[some (strOf "K"), some (strOf "V")]])
    (by decide) (by decide) (by decide)
  exact ⟨h.1.1, (h.1.2 0 (by decide)).1⟩

/-- Claim C4, counterexample: the pipeline performs NO numeric coercion of
column 7 — on a main row whose column 7 is `"N/A"`, the result still holds
`"N/A"`, not zero (there is no coercion code anywhere in app.py). -/
theorem c4_counterexample :
    ((resRows (process_data
      (DataFrame.mk 8 [[some (strOf "A"), some (strOf "x"),
        some (strOf "y"), some (strOf "B"), none, none, none,
        some (strOf "N/A")]])
      (DataFrame.mk 2 [[some (strOf "K"),
        some (strOf "V")]]))).getD 0 []).getD 7 none = some (strOf "N/A") ∧
    some (strOf "N/A") ≠ (some (strOf "0") : Cell) := by
  refine ⟨by decide, by decide⟩

/-- Claim C4 as amended: the pipeline applies no numeric coercion at all;
column 7, like every column other than 4, passes through `process_data`
unchanged (and column 4 is untouched by any coercion step, trivially,
since no such step exists). -/
theorem c4_amended_no_coercion (main_df index_df : DataFrame)
    (hm : 4 ≤ main_df.ncols) (hic : 2 ≤ index_df.ncols) (hr : Rect main_df) :
    ∀ i, i < main_df.rows.length →
      ((resRows (process_data main_df index_df)).getD i []).getD 7 none =
        (if 7 < main_df.ncols then (main_df.rows.getD i []).getD 7 none
         else none) := by
  obtain ⟨_, _, _, hrow⟩ := process_data_spec main_df index_df hm hic hr
  exact fun i hi => (hrow i hi).2.2.2 7 (by decide)

/-- Witness for the amended C4: the `"N/A"` in column 7 survives unchanged. -/
theorem c4_amended_witness :
    ((resRows (process_data
      (DataFrame.mk 8 [[some (strOf "A"), some (strOf "x"),
        some (strOf "y"), some (strOf "B"), none, none, none,
        some (strOf "42.5")]])
      (DataFrame.mk 2 [[some (strOf "K"),
        some (strOf "V")]]))).getD 0 []).getD 7 none =
      some (strOf "42.5") := by
  have h := c4_amended_no_coercion
    (DataFrame.mk 8 [[some (strOf "A"), some (strOf "x"),
      some (strOf "y"), some (strOf "B"), none, none, none,
      some (strOf "42.5")]])
    (DataFrame.mk 2 [[some (strOf "K"), some (strOf "V")]])
    (by decide) (by decide) (by decide)
  rw [h 0 (by decide)]
  decide

/-- Claim C10: composite keys are built by separator-free concatenation, so
the distinct pairs `("AB", "C")` and `("A", "BC")` collide on `"ABC"`; and
any two rows with equal composite keys always receive the same mask value
and the same column-4 result against the same index. -/
theorem c10_composite_collision :
    (composite_key (DataFrame.mk 4
        [[some (strOf "AB"), none, none, some (strOf "C")],
         [some (strOf "A"), none, none, some (strOf "BC")]]) 0 =
      composite_key (DataFrame.mk 4
        [[some (strOf "AB"), none, none, some (strOf "C")],
         [some (strOf "A"), none, none, some (strOf "BC")]]) 1 ∧
     ((DataFrame.mk 4
        [[some (strOf "AB"), none, none, some (strOf "C")],
         [some (strOf "A"), none, none, some (strOf "BC")]]).rows.getD 0 [] ≠
      (DataFrame.mk 4
        [[some (strOf "AB"), none, none, some (strOf "C")],
         [some (strOf "A"), none, none, some (strOf "BC")]]).rows.getD 1 [])) ∧
    ∀ main_df index_df : DataFrame, 4 ≤ main_df.ncols → 2 ≤ index_df.ncols →
      Rect main_df →
      ∀ i1 i2, i1 < main_df.rows.length → i2 < main_df.rows.length →
        composite_key main_df i1 = composite_key main_df i2 →
        (resMask (process_data main_df index_df)).getD i1 false =
          (resMask (process_data main_df index_df)).getD i2 false ∧
        ((resRows (process_data main_df index_df)).getD i1 []).getD 4 none =
          ((resRows (process_data main_df index_df)).getD i2 []).getD 4 none := by
  refine ⟨⟨by decide, by decide⟩, ?_⟩
  intro main_df index_df hm hic hr i1 i2 h1 h2 hkey
  obtain ⟨_, _, _, hrow⟩ := process_data_spec main_df index_df hm hic hr
  constructor
  · rw [(hrow i1 h1).2.1, (hrow i2 h2).2.1, hkey]
  · rw [(hrow i1 h1).2.2.1, (hrow i2 h2).2.2.1, hkey]

/-- Witness for C10: the colliding rows `("AB", _, _, "C")` and
`("A", _, _, "BC")` get the same mask value and the same column-4 result. -/
theorem c10_witness :
    (resMask (process_data
      (DataFrame.mk 4 [[some (strOf "AB"), none, none, some (strOf "C")],
        [some (strOf "A"), none, none, some (strOf "BC")]])
      (DataFrame.mk 2 [[some (strOf "K"), some (strOf "V")]]))).getD 0 false =
      (resMask (process_data
        (DataFrame.mk 4 [[some (strOf "AB"), none, none, some (strOf "C")],
          [some (strOf "A"), none, none, some (strOf "BC")]])
        (DataFrame.mk 2 [[some (strOf "K"),
          some (strOf "V")]]))).getD 1 false ∧
    ((resRows (process_data
      (DataFrame.mk 4 [[some (strOf "AB"), none, none, some (strOf "C")],
        [some (strOf "A"), none, none, some (strOf "BC")]])
      (DataFrame.mk 2 [[some (strOf "K"),
        some (strOf "V")]]))).getD 0 []).getD 4 none =
      ((resRows (process_data
        (DataFrame.mk 4 [[some (strOf "AB"), none, none, some (strOf "C")],
          [some (strOf "A"), none, none, some (strOf "BC")]])
        (DataFrame.mk 2 [[some (strOf "K"),
          some (strOf "V")]]))).getD 1 []).getD 4 none :=
  c10_composite_collision.2
    (DataFrame.mk 4 [[some (strOf "AB"), none, none, some (strOf "C")],
      [some (strOf "A"), none, none, some (strOf "BC")]])
    (DataFrame.mk 2 [[some (strOf "K"), some (strOf "V")]])
    (by decide) (by decide) (by decide) 0 1 (by decide) (by decide) (by decide)

/-- Witness for C9: a one-column reference table errors. -/
theorem c9_witness :
    (DataFrame.mk 1 [[some (strOf "K")]]).ncols < 2 ∧
    process_data (DataFrame.mk 5 [])
      (DataFrame.mk 1 [[some (strOf "K")]]) = .error () :=
  ⟨by decide,
    c9_narrow_reference_errors (DataFrame.mk 5 [])
      (DataFrame.mk 1 [[some (strOf "K")]]) (by decide)⟩

/-- The base `to_excel` dump writes every cell without highlight. -/
theorem toExcelGrid_snd (df : DataFrame) (r c : Nat) :
    (toExcelGrid df r c).2 = false := by
  unfold toExcelGrid
  split <;> rfl

/-- The highlight pass never touches worksheet rows at or below its starting
index (it only writes rows `start + 1, start + 2, ...`). -/
theorem highlightLoop_low (df : DataFrame) (mask : List Bool) :
    ∀ (start : Nat) (g : Grid) (r c : Nat), r ≤ start →
      highlightLoop df mask start g r c = g r c := by
  induction mask with
  | nil => intro start g r c _; rfl
  | cons m rest ih =>
    intro start g r c hrs
    simp only [highlightLoop]
    rw [ih (start + 1) _ r c (by omega)]
    cases m
    · rfl
    · simp only [if_true]
      unfold wwrite
      rw [if_neg]
      rintro ⟨hre, -⟩
      omega

/-- The highlight pass never touches a column other than 4. -/
theorem highlightLoop_other_col (df : DataFrame) (mask : List Bool) :
    ∀ (start : Nat) (g : Grid) (r c : Nat), c ≠ 4 →
      highlightLoop df mask start g r c = g r c := by
  induction mask with
  | nil => intro start g r c _; rfl
  | cons m rest ih =>
    intro start g r c hc
    simp only [highlightLoop]
    rw [ih (start + 1) _ r c hc]
    cases m
    · rfl
    · simp only [if_true]
      unfold wwrite
      rw [if_neg]
      rintro ⟨-, hce⟩
      exact hc hce

/-- What the highlight pass leaves at (worksheet row `start + i + 1`,
column 4): the blanked column-4 value with the yellow flag when entry `i`
of the remaining mask is true, the underlying grid cell otherwise. -/
theorem highlightLoop_at (df : DataFrame) (mask : List Bool) :
    ∀ (start : Nat) (g : Grid) (i : Nat), i < mask.length →
      highlightLoop df mask start g (start + i + 1) 4 =
        (if mask.getD i false then
          ((some (blankIfNa ((df.rows.getD (start + i) []).getD 4 none)) :
            Cell), true)
         else g (start + i + 1) 4) := by
  induction mask with
  | nil => intro start g i hi; simp at hi
  | cons m rest ih =>
    intro start g i hi
    simp only [highlightLoop]
    cases i with
    | zero =>
      rw [highlightLoop_low df rest (start + 1) _ (start + 1) 4 (by omega)]
      cases m
      · rfl
      · simp [wwrite]
    | succ i2 =>
      have h2 : i2 < rest.length := by simpa using hi
      rw [show start + (i2 + 1) + 1 = (start + 1) + i2 + 1 by omega]
      rw [ih (start + 1) _ i2 h2]
      rw [show start + 1 + i2 = start + (i2 + 1) by omega]
      have hgd : (m :: rest).getD (i2 + 1) false = rest.getD i2 false := rfl
      rw [hgd]
      split
      · rfl
      · cases m
        · rfl
        · simp only [if_true]
          unfold wwrite
          rw [if_neg]
          rintro ⟨hre, -⟩
          omega

/-- Claim C8: in the exported sheet (data row `i` on worksheet row
`i + 1`), the cell at column 4 carries the yellow highlight exactly when
`mask[i]` is true; no other column of the row is ever highlighted; and the
value written into a highlighted cell is the column-4 result value with a
NaN replaced by the empty string. -/
theorem c8_export_highlight (df : DataFrame) (mask : List Bool)
    (_hlen : mask.length = df.rows.length) :
    ∀ i, i < mask.length →
      (convert_df_to_excel_with_highlight df mask (i + 1) 4).2 =
        mask.getD i false ∧
      (∀ j, j ≠ 4 →
        (convert_df_to_excel_with_highlight df mask (i + 1) j).2 = false) ∧
      (mask.getD i false = true →
        (convert_df_to_excel_with_highlight df mask (i + 1) 4).1 =
          some (blankIfNa ((df.rows.getD i []).getD 4 none))) := by
  intro i hi
  unfold convert_df_to_excel_with_highlight
  have hat := highlightLoop_at df mask 0 (toExcelGrid df) i hi
  rw [show (0 : Nat) + i + 1 = i + 1 by omega, show (0 : Nat) + i = i by omega]
    at hat
  refine ⟨?_, ?_, ?_⟩
  · rw [hat]
    rcases h : mask.getD i false
    · simp [toExcelGrid_snd]
    · simp
  · intro j hj
    rw [highlightLoop_other_col df mask 0 (toExcelGrid df) (i + 1) j hj]
    exact toExcelGrid_snd df (i + 1) j
  · intro h
    rw [hat, if_pos h]

/-- Witness for C8: a single matched row whose column-4 value is NaN is
highlighted and written as the empty string. -/
theorem c8_witness :
    [true].length =
      (DataFrame.mk 5 [[some (strOf "a"), none, none, none, none]]).rows.length ∧
    (convert_df_to_excel_with_highlight
      (DataFrame.mk 5 [[some (strOf "a"), none, none, none, none]])
      [true] 1 4).2 = true ∧
    (convert_df_to_excel_with_highlight
      (DataFrame.mk 5 [[some (strOf "a"), none, none, none, none]])
      [true] 1 4).1 = some [] := by
  have h := c8_export_highlight
    (DataFrame.mk 5 [[some (strOf "a"), none, none, none, none]])
    [true] (by decide) 0 (by decide)
  refine ⟨by decide, ?_, ?_⟩
  · rw [h.1]
    decide
  · rw [h.2.2 (by decide)]
    decide

end Merge
